import Mathlib

/-
  Verification development for the builtin-actors repository.

  The repository's visible sources are: the EVM actor's proxy-call test
  (src/actors/evm/tests/call.rs), the actor-bundle build script (src/build.rs),
  and the tableland interface types (src/actors/tableland/interface/src/types.rs).
  The EVM bytecode interpreter itself is not under src/; where a claim depends on
  it, the definitions below are modelled from the specification (spec.md), as
  marked in their doc comments.
-/

set_option maxRecDepth 10000

/-! ## Basic byte and word helpers -/

/-- The 256-bit word modulus used by the interpreter's stack machine. -/
def wordModulus : Nat := 2 ^ 256

/-- Reduce a natural number into the 256-bit word range. -/
def wordOf (n : Nat) : Nat := n % wordModulus

/-- Big-endian byte decomposition: `beBytes w v` is the `w`-byte big-endian
encoding of `v % 256 ^ w`. -/
def beBytes : Nat → Nat → List Nat
  | 0, _ => []
  | k + 1, v => beBytes k (v / 256) ++ [v % 256]

/-- Big-endian interpretation of a byte sequence as a natural number. -/
def fromBigEndian (bs : List Nat) : Nat := bs.foldl (fun a b => a * 256 + b) 0

/-! ## Build script model (src/build.rs)

The `ACTORS` table and the bundling loop of `main` in src/build.rs. -/

/-- The `ACTORS` constant of src/build.rs: `(package, id)` pairs, in source
order. -/
def ACTORS : List (String × String) :=
  [("system", "system"),
   ("init", "init"),
   ("cron", "cron"),
   ("account", "account"),
   ("multisig", "multisig"),
   ("power", "storagepower"),
   ("miner", "storageminer"),
   ("market", "storagemarket"),
   ("paych", "paymentchannel"),
   ("reward", "reward"),
   ("verifreg", "verifiedregistry")]

/-- The packages whose wasm artifacts `main` in src/build.rs adds to the
bundle: the loop `for (pkg, id) in ACTORS` iterates the table in order and adds
`fil_actor_{pkg}.wasm` for each entry, so the bundled packages are exactly the
first components of `ACTORS`, in order. -/
def bundledPackages : List String := ACTORS.map Prod.fst

/-- The actor IDs registered in the bundle by the loop in `main`
(`bundler.add_from_file(id, ...)`), in order. -/
def bundledActorIDs : List String := ACTORS.map Prod.snd

/-! ## SQL value encoding model
(src/actors/tableland/interface/src/types.rs)

`QueryReturn.rows` holds `rusqlite` values serialized through the untagged
`ValueDef` mirror enum via serde_with's `SerializeAs`/`DeserializeAs`.  The
serde data model is embedded as `Content`; an untagged enum serializes the
active variant's payload directly and deserializes by trying the variants in
declaration order (Null, Integer, Real, Text, Blob). -/

/-- An IEEE-754 binary64 value, represented by its 64-bit pattern, as Rust's
`f64` stores it.  Serialization moves the bits verbatim; only the equality
predicate interprets them. -/
structure F64 where
  bits : Nat
deriving DecidableEq, Repr

/-- IEEE-754 binary64 NaN test: exponent field all ones and nonzero mantissa. -/
def f64IsNaN (x : F64) : Bool := decide ((x.bits / 2 ^ 52) % 2 ^ 11 = 0x7FF) && !decide (x.bits % 2 ^ 52 = 0)

/-- IEEE-754 binary64 zero test: everything but the sign bit is zero. -/
def f64IsZero (x : F64) : Bool := decide (x.bits % 2 ^ 63 = 0) && decide ((x.bits / 2 ^ 52) % 2 ^ 11 ≠ 0x7FF)

/-- IEEE-754 equality, which Rust's `f64: PartialEq` implements: false when
either side is NaN, true for +0 versus -0, bit equality otherwise. -/
def f64Eq (x y : F64) : Bool :=
  if f64IsNaN x || f64IsNaN y then false
  else if f64IsZero x && f64IsZero y then true
  else x.bits == y.bits

/-- The `rusqlite::types::Value` enum mirrored by `ValueDef` in types.rs:
Null, Integer(i64), Real(f64), Text(String), Blob(Vec of u8). -/
inductive Value where
  | null
  | integer (i : Int)
  | real (r : F64)
  | text (s : String)
  | blob (bs : List Nat)
deriving DecidableEq, Repr

/-- Equality on `Value` as Rust derives `PartialEq` for
`rusqlite::types::Value`: structural, with `f64` compared by IEEE equality. -/
def valueEq : Value → Value → Bool
  | Value.null, Value.null => true
  | Value.integer a, Value.integer b => a == b
  | Value.real a, Value.real b => f64Eq a b
  | Value.text a, Value.text b => a == b
  | Value.blob a, Value.blob b => a == b
  | _, _ => false

/-- The serde data model content produced by serializing through the untagged
`ValueDef` encoding: a unit for Null, an integer, a float, a string, or a
sequence (a `Vec` of u8 without a bytes adapter serializes as a sequence of
integers, so the sequences occurring here hold integer elements). -/
inductive Content where
  | unit
  | int (i : Int)
  | float (f : F64)
  | str (s : String)
  | seq (xs : List Int)
deriving DecidableEq, Repr

/-- Serialization through `ValueDef` (untagged): the active variant's payload
is serialized directly, with Blob's `Vec` of u8 becoming a sequence of
integers. -/
def serializeValue : Value → Content
  | Value.null => Content.unit
  | Value.integer i => Content.int i
  | Value.real r => Content.float r
  | Value.text s => Content.str s
  | Value.blob bs => Content.seq (bs.map Int.ofNat)

/-- Deserializing an `i64` from buffered content: only integer content is
accepted (the primitive visitor for `i64` rejects floats, strings, sequences
and unit). -/
def deI64 : Content → Option Int
  | Content.int i => some i
  | _ => none

/-- Deserializing an `f64` from buffered content.  Rust's `f64` visitor also
accepts integer content by conversion, but in the untagged ordering the
`Integer` variant is tried first, so float content is the only kind that
reaches this deserializer from a serialized `Value`; the conversion path is
therefore omitted. -/
def deF64 : Content → Option F64
  | Content.float f => some f
  | _ => none

/-- Deserializing a `String` from buffered content. -/
def deStr : Content → Option String
  | Content.str s => some s
  | _ => none

/-- Deserializing a single `u8` from buffered integer content: accepted when it
lies in 0..=255. -/
def deByte (i : Int) : Option Nat :=
  if 0 ≤ i ∧ i < 256 then some i.toNat else none

/-- Deserializing a `Vec` of u8 from buffered sequence elements: each element
must deserialize as a `u8`. -/
def deBytesList : List Int → Option (List Nat)
  | [] => some []
  | c :: cs =>
    match deByte c, deBytesList cs with
    | some b, some bs => some (b :: bs)
    | _, _ => none

/-- Deserializing a `Vec` of u8: requires sequence content. -/
def deBytes : Content → Option (List Nat)
  | Content.seq xs => deBytesList xs
  | _ => none

/-- Untagged deserialization through `ValueDef`: buffer the content, then try
the variants in declaration order (Null, Integer, Real, Text, Blob), returning
the first that accepts the content. -/
def deserializeValue (c : Content) : Option Value :=
  if c == Content.unit then some Value.null
  else
    match deI64 c with
    | some i => some (Value.integer i)
    | none =>
      match deF64 c with
      | some f => some (Value.real f)
      | none =>
        match deStr c with
        | some s => some (Value.text s)
        | none =>
          match deBytes c with
          | some bs => some (Value.blob bs)
          | none => none

/-- Side condition carried by the Rust types: Blob holds `u8` values, so every
byte is below 256. -/
def blobBytesOk : Value → Prop
  | Value.blob bs => ∀ b ∈ bs, b < 256
  | _ => True

/-- Whether a value is free of NaN: every shape except a NaN Real. -/
def realNotNaN : Value → Bool
  | Value.real r => !f64IsNaN r
  | _ => true

/-- The bit pattern of the canonical quiet NaN. -/
def nanBits : F64 := F64.mk 0x7FF8000000000000

/-- A `Real` SQL value holding NaN. -/
def nanValue : Value := Value.real nanBits

theorem deBytesList_map (bs : List Nat) (h : ∀ b ∈ bs, b < 256) :
    deBytesList (bs.map Int.ofNat) = some bs := by
  induction bs with
  | nil => rfl
  | cons x xs ih =>
    have hx : x < 256 := h x (by simp)
    have hxs : ∀ b ∈ xs, b < 256 := fun b hb => h b (by simp [hb])
    simp only [List.map, deBytesList, deByte]
    rw [ih hxs]
    simp [hx]

/-! ## Address translation model

Modelled from the spec: the address-translation module (spec.md section 4.4)
is not under src/; only its use `EVMAddress::from_id_address` appears in
src/actors/evm/tests/call.rs.  `to_evm` maps a native address deterministically
into the 160-bit space, synthesizing a stable placeholder for addresses
without a reverse mapping; ID-class addresses get the ID-masked form whose
first byte is 0xff followed by the 64-bit ID, big-endian, as
`as_evm_word` exposes in the test. -/

/-- A native account address of the host chain: either an ID-class address or
some other class carrying an uninterpreted payload. -/
inductive NativeAddress where
  | id (v : Nat)
  | other (payload : List Nat)
deriving DecidableEq, Repr

/-- Modelled from the spec: `to_evm(native_address) -> evm_address`, total and
deterministic; an ID-class address maps to the ID-masked 160-bit address
`0xff || 0u88 || id_be64`, other classes to a stable placeholder derived from
the payload. -/
def to_evm : NativeAddress → Nat
  | NativeAddress.id v => 0xff * 2 ^ 152 + v % 2 ^ 64
  | NativeAddress.other p => fromBigEndian p % 2 ^ 160

/-- Modelled from the spec: `EVMAddress::from_id_address` as used at
src/actors/evm/tests/call.rs line 81; defined for exactly the ID-class
addresses, where it agrees with `to_evm`. -/
def from_id_address : NativeAddress → Option Nat
  | NativeAddress.id v => some (0xff * 2 ^ 152 + v % 2 ^ 64)
  | NativeAddress.other _ => none

/-! ## Constructor entry model

Modelled from the spec: the EVM actor's `Constructor` method body is not under
src/.  Spec.md section 6 describes `construct(bytecode, constructor_input)`;
the test src/actors/evm/tests/call.rs lines 63-75 fixes the observable
behavior: the constructor call succeeds and `expect_empty(result)` (line 74)
pins the value returned to the caller to be empty, the bytecode being kept in
the actor's state for later `InvokeContract` calls to run. -/

/-- The EVM actor's persistent state after construction: the stored contract
bytecode. -/
structure ActorState where
  bytecode : List Nat
deriving DecidableEq, Repr

/-- Result of a `Constructor` invocation: the actor state it installs and the
bytes it returns to the caller. -/
structure ConstructResult where
  state : ActorState
  ret : List Nat
deriving DecidableEq, Repr

/-- Modelled from the spec and the constructor expectations of
src/actors/evm/tests/call.rs: `construct` stores the given bytecode in the
actor state and returns an empty value to the caller (line 74 of the test,
`expect_empty(result)`). -/
def construct (bytecode _input : List Nat) : ConstructResult :=
  { state := { bytecode := bytecode }, ret := [] }

/-! ## EVM interpreter model

Modelled from the spec: the bytecode interpreter and call-dispatch engine
(spec.md sections 2-4, 7) is not under src/; only the proxy-call test that
exercises it is.  The model below follows the spec's data model: 256-bit
words, a stack of maximal depth 1024, lazily grown byte memory with quadratic
expansion cost, charge-before-effect gas metering, journal-per-context state
with commit on success and discard on revert or fault, static-context
enforcement, and the 63/64 gas-forwarding rule for the CALL family.  Calls to
addresses holding no modelled contract are dispatched to an external-send
environment `env`, as the host runtime dispatches sends to other actors (the
test mocks such a send with `expect_send`). -/

/-- Reasons an execution context can terminate with a Fault
(spec.md section 7). -/
inductive FaultReason where
  | stackUnderflow
  | stackOverflow
  | invalidOpcode
  | invalidJumpDest
  | outOfGas
  | stateChangeInStaticContext
  | addressCollision
deriving DecidableEq, Repr

/-- Tagged result of one completed execution context (spec.md section 3). -/
inductive Outcome where
  | ret (data : List Nat)
  | revert (data : List Nat)
  | stop
  | selfDestruct (beneficiary : Nat)
  | fault (r : FaultReason)
deriving DecidableEq, Repr

/-- Whether an outcome is a fault. -/
def isFault : Outcome → Bool
  | Outcome.fault _ => true
  | _ => false

/-- Whether an outcome is a success (Stop, Return or SelfDestruct commit the
journal; Revert and Fault discard it). -/
def isSuccess : Outcome → Bool
  | Outcome.ret _ => true
  | Outcome.stop => true
  | Outcome.selfDestruct _ => true
  | _ => false

/-- The output bytes an outcome carries. -/
def outputOf : Outcome → List Nat
  | Outcome.ret d => d
  | Outcome.revert d => d
  | _ => []

/-- A contract account: its code, its key-value storage (most recent staged
write first), and its nonce for CREATE address derivation. -/
structure Contract where
  code : List Nat
  storage : List (Nat × Nat)
  nonce : Nat
deriving DecidableEq, Repr

/-- The persistent state the interpreter threads through a call tree: the
known contracts by 160-bit address.  A context's staged journal is realized by
threading this state into the child and restoring the pre-call snapshot when
the child reverts or faults. -/
structure World where
  contracts : List (Nat × Contract)
deriving DecidableEq, Repr

/-- Look up a contract by address. -/
def contractOf (w : World) (a : Nat) : Option Contract :=
  (w.contracts.find? (fun p => p.1 == a)).map Prod.snd

/-- Install or replace the contract at an address. -/
def worldUpdate (w : World) (a : Nat) (k : Contract) : World :=
  { contracts := (a, k) :: w.contracts }

/-- Read a storage slot from a staged-write list; absent keys read as the
canonical zero (spec.md section 4.5). -/
def storGet (s : List (Nat × Nat)) (k : Nat) : Nat :=
  ((s.find? (fun p => p.1 == k)).map Prod.snd).getD 0

/-- The storage of the contract at an address (empty when none). -/
def storageOf (w : World) (a : Nat) : List (Nat × Nat) :=
  ((contractOf w a).map Contract.storage).getD []

/-- Stage a storage write for the contract at an address. -/
def worldSetStorage (w : World) (a k v : Nat) : World :=
  match contractOf w a with
  | some c => worldUpdate w a { c with storage := (k, v) :: c.storage }
  | none => worldUpdate w a { code := [], storage := [(k, v)], nonce := 0 }

/-- The CREATE nonce of the contract at an address. -/
def nonceOf (w : World) (a : Nat) : Nat :=
  ((contractOf w a).map Contract.nonce).getD 0

/-- Bump the CREATE nonce of the contract at an address. -/
def worldBumpNonce (w : World) (a : Nat) : World :=
  match contractOf w a with
  | some c => worldUpdate w a { c with nonce := c.nonce + 1 }
  | none => worldUpdate w a { code := [], storage := [], nonce := 1 }

/-- Whether the account at an address already holds code (the CREATE collision
condition, spec.md section 4.3). -/
def contractHasCode (w : World) (a : Nat) : Bool :=
  match contractOf w a with
  | some c => !(c.code == [])
  | none => false

/-- An execution context (spec.md section 3): bytecode, program counter,
stack, memory, remaining gas, call parameters, the static flag, the nesting
depth, and the return data of the most recent completed child call. -/
structure Ctx where
  code : List Nat
  pc : Nat
  stack : List Nat
  mem : List Nat
  gas : Nat
  caller : Nat
  address : Nat
  callValue : Nat
  input : List Nat
  isStatic : Bool
  depth : Nat
  retData : List Nat
deriving DecidableEq, Repr

/-- Push onto the word stack; fails when the stack already holds 1024 words
(spec.md section 3). -/
def pushStack (s : List Nat) (v : Nat) : Option (List Nat) :=
  if 1024 ≤ s.length then none else some (v :: s)

/-- Pop one word. -/
def pop1 : List Nat → Option (Nat × List Nat)
  | a :: s => some (a, s)
  | _ => none

/-- Pop two words. -/
def pop2 : List Nat → Option (Nat × Nat × List Nat)
  | a :: b :: s => some (a, b, s)
  | _ => none

/-- Pop three words. -/
def pop3 : List Nat → Option (Nat × Nat × Nat × List Nat)
  | a :: b :: c :: s => some (a, b, c, s)
  | _ => none

/-- Pop six words (STATICCALL operands). -/
def pop6 : List Nat → Option (Nat × Nat × Nat × Nat × Nat × Nat × List Nat)
  | a :: b :: c :: d :: e :: f :: s => some (a, b, c, d, e, f, s)
  | _ => none

/-- Pop seven words (CALL operands). -/
def pop7 : List Nat → Option (Nat × Nat × Nat × Nat × Nat × Nat × Nat × List Nat)
  | a :: b :: c :: d :: e :: f :: g :: s => some (a, b, c, d, e, f, g, s)
  | _ => none

/-- Read `len` bytes starting at `off` from a byte sequence, zero-padded past
its end (memory, calldata and return data all read this way). -/
def readBytes (xs : List Nat) (off len : Nat) : List Nat :=
  (List.range len).map (fun i => xs.getD (off + i) 0)

/-- Write a byte sequence into memory at `off`, growing the memory
(zero-filled) to cover the written range. -/
def memWrite (m : List Nat) (off : Nat) (bs : List Nat) : List Nat :=
  let n := max m.length (off + bs.length)
  (List.range n).map (fun i =>
    if off ≤ i ∧ i < off + bs.length then bs.getD (i - off) 0 else m.getD i 0)

/-- Number of 32-byte words covering `n` bytes. -/
def memWords (n : Nat) : Nat := (n + 31) / 32

/-- Total memory cost of a word count: a linear term plus a quadratic term
(spec.md section 3). -/
def memCostWords (wds : Nat) : Nat := 3 * wds + wds * wds / 512

/-- Gas charged for growing memory to cover `newEnd` bytes: the increase of
the total memory cost, zero when no growth happens. -/
def memGrowth (m : List Nat) (newEnd : Nat) : Nat :=
  memCostWords (max (memWords m.length) (memWords newEnd)) - memCostWords (memWords m.length)

/-- Memory end touched by a length-`len` access at `off`: zero-length accesses
touch nothing. -/
def touchEnd (off len : Nat) : Nat := if len = 0 then 0 else off + len

/-- The 63/64 forwarding rule (spec.md section 4.3): the gas handed to a child
is the requested amount capped at all-but-one-64th of the gas available after
the call's own cost. -/
def forwardGas (requested avail : Nat) : Nat := min requested (avail - avail / 64)

/-- Build the child execution context for a CALL-family dispatch: fresh stack,
memory and program counter, the child's gas set by the 63/64 forwarding rule
from the requested and available amounts. -/
def mkChildCtx (code : List Nat) (callerA targetA value : Nat) (input : List Nat)
    (static : Bool) (depth requested avail : Nat) : Ctx :=
  { code := code, pc := 0, stack := [], mem := [], gas := forwardGas requested avail,
    caller := callerA, address := targetA, callValue := value, input := input,
    isStatic := static, depth := depth, retData := [] }

/-- Fold a child context's result into the parent (spec.md sections 4.3, 7):
on success the child's journal (threaded world) is committed and its unused
gas returned; on Revert the return data is surfaced and unused gas returned
but the journal is discarded (the pre-call snapshot is restored); on Fault the
journal is discarded and no gas is refunded — the child's remaining gas is
consumed.  Returns (success flag, return data, gas refunded, world). -/
def applyChildResult (snapshot : World) (r : Outcome × Nat × World) :
    Bool × List Nat × Nat × World :=
  match r with
  | (Outcome.ret d, g, w) => (true, d, g, w)
  | (Outcome.stop, g, w) => (true, [], g, w)
  | (Outcome.selfDestruct _, g, w) => (true, [], g, w)
  | (Outcome.revert d, g, _) => (false, d, g, snapshot)
  | (Outcome.fault _, _, _) => (false, [], 0, snapshot)

/-- Modelled from the spec: CREATE address derivation (spec.md section 4.3)
hashes the creator address and nonce; the hash is abstracted as a fixed
deterministic injective-in-practice mixing into the 160-bit space. -/
def createAddress (creator nonce : Nat) : Nat :=
  (creator * 2 ^ 64 + nonce + 1) % 2 ^ 160


/-- Result of one local interpreter step: a terminal outcome with the gas left
in the context (zero for every fault, per spec.md section 7), or the updated
context to continue from. -/
inductive StepRes where
  | done (o : Outcome) (g : Nat)
  | next (c : Ctx)
deriving DecidableEq, Repr

/-- Scan the bytecode for valid jump destinations: positions holding JUMPDEST
(0x5b) that are not inside the immediate data of a PUSH (spec.md sections 4.1,
6).  `fuel` bounds the scan by the code length. -/
def scanDests (code : List Nat) : Nat → Nat → List Nat
  | 0, _ => []
  | f + 1, i =>
    if i < code.length then
      let op := code.getD i 0
      if op = 0x5b then i :: scanDests code f (i + 1)
      else if 0x60 ≤ op ∧ op ≤ 0x7f then scanDests code f (i + (op - 0x5f) + 1)
      else scanDests code f (i + 1)
    else []

/-- The valid jump destinations of a bytecode sequence. -/
def jumpDests (code : List Nat) : List Nat := scanDests code code.length 0

/-- STOP. -/
def stepStop (c : Ctx) : StepRes := StepRes.done Outcome.stop c.gas

/-- ADD: wrapping 256-bit addition. -/
def stepAdd (c : Ctx) : StepRes :=
  match pop2 c.stack with
  | none => StepRes.done (Outcome.fault FaultReason.stackUnderflow) 0
  | some (a, b, st) =>
    if 3 ≤ c.gas then
      match pushStack st ((a + b) % wordModulus) with
      | none => StepRes.done (Outcome.fault FaultReason.stackOverflow) 0
      | some st2 => StepRes.next { c with stack := st2, gas := c.gas - 3, pc := c.pc + 1 }
    else StepRes.done (Outcome.fault FaultReason.outOfGas) 0

/-- SUB: wrapping 256-bit subtraction, top minus next. -/
def stepSub (c : Ctx) : StepRes :=
  match pop2 c.stack with
  | none => StepRes.done (Outcome.fault FaultReason.stackUnderflow) 0
  | some (a, b, st) =>
    if 3 ≤ c.gas then
      match pushStack st ((a + wordModulus - b % wordModulus) % wordModulus) with
      | none => StepRes.done (Outcome.fault FaultReason.stackOverflow) 0
      | some st2 => StepRes.next { c with stack := st2, gas := c.gas - 3, pc := c.pc + 1 }
    else StepRes.done (Outcome.fault FaultReason.outOfGas) 0

/-- CALLDATALOAD: a 32-byte big-endian word of calldata, zero-padded. -/
def stepCalldataload (c : Ctx) : StepRes :=
  match pop1 c.stack with
  | none => StepRes.done (Outcome.fault FaultReason.stackUnderflow) 0
  | some (off, st) =>
    if 3 ≤ c.gas then
      match pushStack st (fromBigEndian (readBytes c.input off 32)) with
      | none => StepRes.done (Outcome.fault FaultReason.stackOverflow) 0
      | some st2 => StepRes.next { c with stack := st2, gas := c.gas - 3, pc := c.pc + 1 }
    else StepRes.done (Outcome.fault FaultReason.outOfGas) 0

/-- CALLDATASIZE. -/
def stepCalldatasize (c : Ctx) : StepRes :=
  if 2 ≤ c.gas then
    match pushStack c.stack c.input.length with
    | none => StepRes.done (Outcome.fault FaultReason.stackOverflow) 0
    | some st2 => StepRes.next { c with stack := st2, gas := c.gas - 2, pc := c.pc + 1 }
  else StepRes.done (Outcome.fault FaultReason.outOfGas) 0

/-- CALLDATACOPY: copies calldata to memory, charging the copy and memory
expansion cost. -/
def stepCalldatacopy (c : Ctx) : StepRes :=
  match pop3 c.stack with
  | none => StepRes.done (Outcome.fault FaultReason.stackUnderflow) 0
  | some (dst, off, len, st) =>
    let cost := 3 + 3 * memWords len + memGrowth c.mem (touchEnd dst len)
    if cost ≤ c.gas then
      StepRes.next { c with stack := st,
                            mem := if len = 0 then c.mem
                                   else memWrite c.mem dst (readBytes c.input off len),
                            gas := c.gas - cost, pc := c.pc + 1 }
    else StepRes.done (Outcome.fault FaultReason.outOfGas) 0

/-- RETURNDATASIZE. -/
def stepReturndatasize (c : Ctx) : StepRes :=
  if 2 ≤ c.gas then
    match pushStack c.stack c.retData.length with
    | none => StepRes.done (Outcome.fault FaultReason.stackOverflow) 0
    | some st2 => StepRes.next { c with stack := st2, gas := c.gas - 2, pc := c.pc + 1 }
  else StepRes.done (Outcome.fault FaultReason.outOfGas) 0

/-- RETURNDATACOPY: copies the last call's return data to memory. -/
def stepReturndatacopy (c : Ctx) : StepRes :=
  match pop3 c.stack with
  | none => StepRes.done (Outcome.fault FaultReason.stackUnderflow) 0
  | some (dst, off, len, st) =>
    let cost := 3 + 3 * memWords len + memGrowth c.mem (touchEnd dst len)
    if cost ≤ c.gas then
      StepRes.next { c with stack := st,
                            mem := if len = 0 then c.mem
                                   else memWrite c.mem dst (readBytes c.retData off len),
                            gas := c.gas - cost, pc := c.pc + 1 }
    else StepRes.done (Outcome.fault FaultReason.outOfGas) 0

/-- MSTORE: stores a 32-byte big-endian word to memory. -/
def stepMstore (c : Ctx) : StepRes :=
  match pop2 c.stack with
  | none => StepRes.done (Outcome.fault FaultReason.stackUnderflow) 0
  | some (off, v, st) =>
    let cost := 3 + memGrowth c.mem (off + 32)
    if cost ≤ c.gas then
      StepRes.next { c with stack := st, mem := memWrite c.mem off (beBytes 32 v),
                            gas := c.gas - cost, pc := c.pc + 1 }
    else StepRes.done (Outcome.fault FaultReason.outOfGas) 0

/-- JUMP: the target must be a valid jump destination. -/
def stepJump (c : Ctx) : StepRes :=
  match pop1 c.stack with
  | none => StepRes.done (Outcome.fault FaultReason.stackUnderflow) 0
  | some (dest, st) =>
    if 8 ≤ c.gas then
      if (jumpDests c.code).contains dest then
        StepRes.next { c with stack := st, gas := c.gas - 8, pc := dest }
      else StepRes.done (Outcome.fault FaultReason.invalidJumpDest) 0
    else StepRes.done (Outcome.fault FaultReason.outOfGas) 0

/-- JUMPI: conditional jump. -/
def stepJumpi (c : Ctx) : StepRes :=
  match pop2 c.stack with
  | none => StepRes.done (Outcome.fault FaultReason.stackUnderflow) 0
  | some (dest, cond, st) =>
    if 10 ≤ c.gas then
      if cond = 0 then StepRes.next { c with stack := st, gas := c.gas - 10, pc := c.pc + 1 }
      else if (jumpDests c.code).contains dest then
        StepRes.next { c with stack := st, gas := c.gas - 10, pc := dest }
      else StepRes.done (Outcome.fault FaultReason.invalidJumpDest) 0
    else StepRes.done (Outcome.fault FaultReason.outOfGas) 0

/-- JUMPDEST: a no-op marker. -/
def stepJumpdest (c : Ctx) : StepRes :=
  if 1 ≤ c.gas then StepRes.next { c with gas := c.gas - 1, pc := c.pc + 1 }
  else StepRes.done (Outcome.fault FaultReason.outOfGas) 0

/-- PUSH1..PUSH32 (opcode 0x60 + n - 1): pushes the n-byte big-endian
immediate, the program counter skipping the immediate bytes. -/
def stepPush (c : Ctx) (op : Nat) : StepRes :=
  if 3 ≤ c.gas then
    match pushStack c.stack (fromBigEndian (readBytes c.code (c.pc + 1) (op - 0x5f))) with
    | none => StepRes.done (Outcome.fault FaultReason.stackOverflow) 0
    | some st2 =>
      StepRes.next { c with stack := st2, gas := c.gas - 3, pc := c.pc + 1 + (op - 0x5f) }
  else StepRes.done (Outcome.fault FaultReason.outOfGas) 0

/-- RETURN: terminates with the specified memory range as output. -/
def stepReturn (c : Ctx) : StepRes :=
  match pop2 c.stack with
  | none => StepRes.done (Outcome.fault FaultReason.stackUnderflow) 0
  | some (off, len, _st) =>
    let cost := memGrowth c.mem (touchEnd off len)
    if cost ≤ c.gas then
      StepRes.done (Outcome.ret (readBytes c.mem off len)) (c.gas - cost)
    else StepRes.done (Outcome.fault FaultReason.outOfGas) 0

/-- REVERT: terminates, carrying the specified memory range as revert data. -/
def stepRevert (c : Ctx) : StepRes :=
  match pop2 c.stack with
  | none => StepRes.done (Outcome.fault FaultReason.stackUnderflow) 0
  | some (off, len, _st) =>
    let cost := memGrowth c.mem (touchEnd off len)
    if cost ≤ c.gas then
      StepRes.done (Outcome.revert (readBytes c.mem off len)) (c.gas - cost)
    else StepRes.done (Outcome.fault FaultReason.outOfGas) 0

/-- SELFDESTRUCT: state-mutating, so rejected in a static context; otherwise
terminates with the beneficiary. -/
def stepSelfdestruct (c : Ctx) : StepRes :=
  match pop1 c.stack with
  | none => StepRes.done (Outcome.fault FaultReason.stackUnderflow) 0
  | some (b, _st) =>
    if c.isStatic then StepRes.done (Outcome.fault FaultReason.stateChangeInStaticContext) 0
    else if 5000 ≤ c.gas then
      StepRes.done (Outcome.selfDestruct (b % 2 ^ 160)) (c.gas - 5000)
    else StepRes.done (Outcome.fault FaultReason.outOfGas) 0

/-- Execute one opcode that touches neither persistent storage nor other
contracts (spec.md section 4.1 steps b-f): decode, pop operands, charge the
static plus dynamic gas cost, apply the effect.  Stack underflow and overflow,
insufficient gas, unknown opcodes and invalid jump targets fault; RETURN,
REVERT, STOP and SELFDESTRUCT terminate with the corresponding outcome.  The
handlers are grouped by opcode range; this def covers 0x00..0x37. -/
def localStepLow (c : Ctx) (op : Nat) : StepRes :=
  if op = 0x00 then stepStop c
  else if op = 0x01 then stepAdd c
  else if op = 0x03 then stepSub c
  else if op = 0x35 then stepCalldataload c
  else if op = 0x36 then stepCalldatasize c
  else if op = 0x37 then stepCalldatacopy c
  else StepRes.done (Outcome.fault FaultReason.invalidOpcode) 0

/-- The local opcodes in the range 0x38..0x5f. -/
def localStepMid (c : Ctx) (op : Nat) : StepRes :=
  if op = 0x3d then stepReturndatasize c
  else if op = 0x3e then stepReturndatacopy c
  else if op = 0x52 then stepMstore c
  else if op = 0x56 then stepJump c
  else if op = 0x57 then stepJumpi c
  else if op = 0x5b then stepJumpdest c
  else StepRes.done (Outcome.fault FaultReason.invalidOpcode) 0

/-- The local opcodes from 0x60 up: the PUSH range and the terminators. -/
def localStepHigh (c : Ctx) (op : Nat) : StepRes :=
  if op ≤ 0x7f then stepPush c op
  else if op = 0xf3 then stepReturn c
  else if op = 0xfd then stepRevert c
  else if op = 0xff then stepSelfdestruct c
  else StepRes.done (Outcome.fault FaultReason.invalidOpcode) 0

/-- Dispatch a local opcode to its handler by range. -/
def localStep (c : Ctx) (op : Nat) : StepRes :=
  if op < 0x38 then localStepLow c op
  else if op < 0x60 then localStepMid c op
  else localStepHigh c op

/-- SLOAD: reads a storage slot of the current contract from the threaded
world and continues through `recurse`. -/
def stepSload (recurse : World → Ctx → Outcome × Nat × World) (w : World) (c : Ctx) :
    Outcome × Nat × World :=
  match pop1 c.stack with
  | none => (Outcome.fault FaultReason.stackUnderflow, 0, w)
  | some (k, st) =>
    if 100 ≤ c.gas then
      match pushStack st (storGet (storageOf w c.address) k) with
      | none => (Outcome.fault FaultReason.stackOverflow, 0, w)
      | some st2 => recurse w { c with stack := st2, gas := c.gas - 100, pc := c.pc + 1 }
    else (Outcome.fault FaultReason.outOfGas, 0, w)

/-- SSTORE: rejected in a static context; otherwise stages the write into the
threaded world (the context's journal), a zero-to-nonzero transition costing
more than an overwrite (spec.md section 4.2). -/
def stepSstore (recurse : World → Ctx → Outcome × Nat × World) (w : World) (c : Ctx) :
    Outcome × Nat × World :=
  match pop2 c.stack with
  | none => (Outcome.fault FaultReason.stackUnderflow, 0, w)
  | some (k, v, st) =>
    if c.isStatic then (Outcome.fault FaultReason.stateChangeInStaticContext, 0, w)
    else
      let cost := if storGet (storageOf w c.address) k = 0 ∧ v ≠ 0 then 20000 else 5000
      if cost ≤ c.gas then
        recurse (worldSetStorage w c.address k v)
          { c with stack := st, gas := c.gas - cost, pc := c.pc + 1 }
      else (Outcome.fault FaultReason.outOfGas, 0, w)

/-- CALL (spec.md section 4.3): a value transfer is rejected in a static
context; past the depth limit the dispatch fails with a pushed 0; a known
contract target runs as a child context built by `mkChildCtx` (inheriting the
parent's static flag), its result folded back by `applyChildResult`; an
unknown target is dispatched to the external-send environment, or treated as a
plain no-op transfer when that environment does not answer it either. -/
def stepCallOp (env : Nat → List Nat → Option (List Nat))
    (recurse : World → Ctx → Outcome × Nat × World) (w : World) (c : Ctx) :
    Outcome × Nat × World :=
  match pop7 c.stack with
  | none => (Outcome.fault FaultReason.stackUnderflow, 0, w)
  | some (gReq, addr, value, inOff, inSz, outOff, outSz, st) =>
    if c.isStatic && !(value == 0) then
      (Outcome.fault FaultReason.stateChangeInStaticContext, 0, w)
    else
      let cost := 700 + (if value = 0 then 0 else 9000)
        + memGrowth c.mem (max (touchEnd inOff inSz) (touchEnd outOff outSz))
      if cost ≤ c.gas then
        let g1 := c.gas - cost
        if 1024 ≤ c.depth then
          match pushStack st 0 with
          | none => (Outcome.fault FaultReason.stackOverflow, 0, w)
          | some st2 =>
            recurse w { c with stack := st2, gas := g1, pc := c.pc + 1, retData := [] }
        else
          match contractOf w addr with
          | some tgt =>
            let res := applyChildResult w (recurse w
                (mkChildCtx tgt.code c.address addr value (readBytes c.mem inOff inSz)
                  c.isStatic (c.depth + 1) gReq g1))
            match pushStack st (if res.1 then 1 else 0) with
            | none => (Outcome.fault FaultReason.stackOverflow, 0, w)
            | some st2 =>
              recurse res.2.2.2
                { c with stack := st2,
                         mem := if outSz = 0 then c.mem
                                else memWrite c.mem outOff (readBytes res.2.1 0 outSz),
                         gas := g1 - forwardGas gReq g1 + res.2.2.1,
                         pc := c.pc + 1, retData := res.2.1 }
          | none =>
            match env addr (readBytes c.mem inOff inSz) with
            | some rdata =>
              match pushStack st 1 with
              | none => (Outcome.fault FaultReason.stackOverflow, 0, w)
              | some st2 =>
                recurse w
                  { c with stack := st2,
                           mem := if outSz = 0 then c.mem
                                  else memWrite c.mem outOff (readBytes rdata 0 outSz),
                           gas := g1, pc := c.pc + 1, retData := rdata }
            | none =>
              match pushStack st 1 with
              | none => (Outcome.fault FaultReason.stackOverflow, 0, w)
              | some st2 =>
                recurse w { c with stack := st2, gas := g1, pc := c.pc + 1, retData := [] }
      else (Outcome.fault FaultReason.outOfGas, 0, w)

/-- STATICCALL (spec.md section 4.3): like CALL with zero value, but the child
context and all its descendants run with the static flag forced true. -/
def stepStaticcallOp (env : Nat → List Nat → Option (List Nat))
    (recurse : World → Ctx → Outcome × Nat × World) (w : World) (c : Ctx) :
    Outcome × Nat × World :=
  match pop6 c.stack with
  | none => (Outcome.fault FaultReason.stackUnderflow, 0, w)
  | some (gReq, addr, inOff, inSz, outOff, outSz, st) =>
    let cost := 700 + memGrowth c.mem (max (touchEnd inOff inSz) (touchEnd outOff outSz))
    if cost ≤ c.gas then
      let g1 := c.gas - cost
      if 1024 ≤ c.depth then
        match pushStack st 0 with
        | none => (Outcome.fault FaultReason.stackOverflow, 0, w)
        | some st2 =>
          recurse w { c with stack := st2, gas := g1, pc := c.pc + 1, retData := [] }
      else
        match contractOf w addr with
        | some tgt =>
          let res := applyChildResult w (recurse w
              (mkChildCtx tgt.code c.address addr 0 (readBytes c.mem inOff inSz)
                true (c.depth + 1) gReq g1))
          match pushStack st (if res.1 then 1 else 0) with
          | none => (Outcome.fault FaultReason.stackOverflow, 0, w)
          | some st2 =>
            recurse res.2.2.2
              { c with stack := st2,
                       mem := if outSz = 0 then c.mem
                              else memWrite c.mem outOff (readBytes res.2.1 0 outSz),
                       gas := g1 - forwardGas gReq g1 + res.2.2.1,
                       pc := c.pc + 1, retData := res.2.1 }
        | none =>
          match env addr (readBytes c.mem inOff inSz) with
          | some rdata =>
            match pushStack st 1 with
            | none => (Outcome.fault FaultReason.stackOverflow, 0, w)
            | some st2 =>
              recurse w
                { c with stack := st2,
                         mem := if outSz = 0 then c.mem
                                else memWrite c.mem outOff (readBytes rdata 0 outSz),
                         gas := g1, pc := c.pc + 1, retData := rdata }
          | none =>
            match pushStack st 1 with
            | none => (Outcome.fault FaultReason.stackOverflow, 0, w)
            | some st2 =>
              recurse w { c with stack := st2, gas := g1, pc := c.pc + 1, retData := [] }
    else (Outcome.fault FaultReason.outOfGas, 0, w)

/-- CREATE (spec.md section 4.3): rejected in a static context; derives the
new address from the creator and its nonce, faults on a collision with an
account that already holds code, runs the init code as a child whose returned
bytes become the new contract's bytecode; failure or revert of the init code
leaves no contract created, restoring the pre-dispatch journal (with the
creator's nonce bumped) and pushing 0. -/
def stepCreateOp (recurse : World → Ctx → Outcome × Nat × World) (w : World) (c : Ctx) :
    Outcome × Nat × World :=
  match pop3 c.stack with
  | none => (Outcome.fault FaultReason.stackUnderflow, 0, w)
  | some (value, off, len, st) =>
    if c.isStatic then (Outcome.fault FaultReason.stateChangeInStaticContext, 0, w)
    else
      let cost := 32000 + memGrowth c.mem (touchEnd off len)
      if cost ≤ c.gas then
        let g1 := c.gas - cost
        if 1024 ≤ c.depth then
          match pushStack st 0 with
          | none => (Outcome.fault FaultReason.stackOverflow, 0, w)
          | some st2 =>
            recurse w { c with stack := st2, gas := g1, pc := c.pc + 1, retData := [] }
        else
          let newAddr := createAddress c.address (nonceOf w c.address)
          if contractHasCode w newAddr then
            (Outcome.fault FaultReason.addressCollision, 0, w)
          else
            match recurse (worldBumpNonce w c.address)
                (mkChildCtx (readBytes c.mem off len) c.address newAddr value []
                  false (c.depth + 1) g1 g1) with
            | (Outcome.ret codeB, gRem, w2) =>
              match pushStack st newAddr with
              | none => (Outcome.fault FaultReason.stackOverflow, 0, w)
              | some st2 =>
                recurse (worldUpdate w2 newAddr { code := codeB, storage := [], nonce := 0 })
                  { c with stack := st2, gas := g1 - forwardGas g1 g1 + gRem,
                           pc := c.pc + 1, retData := [] }
            | (Outcome.stop, gRem, w2) =>
              match pushStack st newAddr with
              | none => (Outcome.fault FaultReason.stackOverflow, 0, w)
              | some st2 =>
                recurse (worldUpdate w2 newAddr { code := [], storage := [], nonce := 0 })
                  { c with stack := st2, gas := g1 - forwardGas g1 g1 + gRem,
                           pc := c.pc + 1, retData := [] }
            | (Outcome.selfDestruct _, gRem, w2) =>
              match pushStack st newAddr with
              | none => (Outcome.fault FaultReason.stackOverflow, 0, w)
              | some st2 =>
                recurse (worldUpdate w2 newAddr { code := [], storage := [], nonce := 0 })
                  { c with stack := st2, gas := g1 - forwardGas g1 g1 + gRem,
                           pc := c.pc + 1, retData := [] }
            | (Outcome.revert d, gRem, _) =>
              match pushStack st 0 with
              | none => (Outcome.fault FaultReason.stackOverflow, 0, w)
              | some st2 =>
                recurse (worldBumpNonce w c.address)
                  { c with stack := st2, gas := g1 - forwardGas g1 g1 + gRem,
                           pc := c.pc + 1, retData := d }
            | (Outcome.fault _, _, _) =>
              match pushStack st 0 with
              | none => (Outcome.fault FaultReason.stackOverflow, 0, w)
              | some st2 =>
                recurse (worldBumpNonce w c.address)
                  { c with stack := st2, gas := g1 - forwardGas g1 g1,
                           pc := c.pc + 1, retData := [] }
      else (Outcome.fault FaultReason.outOfGas, 0, w)

/-- Feed a local step result back into the loop: a terminal outcome leaves the
world untouched; a continuation context resumes through `recurse`. -/
def localToRun (recurse : World → Ctx → Outcome × Nat × World) (w : World) :
    StepRes → Outcome × Nat × World
  | StepRes.done o g => (o, g, w)
  | StepRes.next c2 => recurse w c2

/-- Dispatch one opcode (spec.md section 4.1 step b): the five opcodes that
touch persistent storage or other contracts get the threaded world and the
recursion; every other opcode goes through `localStep`. -/
def runOp (env : Nat → List Nat → Option (List Nat))
    (recurse : World → Ctx → Outcome × Nat × World) (w : World) (c : Ctx) (op : Nat) :
    Outcome × Nat × World :=
  if op = 0x54 then stepSload recurse w c
  else if op = 0x55 then stepSstore recurse w c
  else if op = 0xf1 then stepCallOp env recurse w c
  else if op = 0xfa then stepStaticcallOp env recurse w c
  else if op = 0xf0 then stepCreateOp recurse w c
  else localToRun recurse w (localStep c op)

/-- The interpreter loop with the call dispatcher (spec.md sections 4.1, 4.3):
fetch the opcode at the program counter (past the end of the code is an
implicit STOP) and dispatch it through `runOp`, recursing until the context
terminates.  `fuel` bounds the iteration count; a fresh context's gas bounds
the fuel it needs since every non-terminal opcode charges at least one gas.
Returns the outcome, the remaining gas (zero on fault, per spec.md section 7)
and the resulting world. -/
def run (env : Nat → List Nat → Option (List Nat)) :
    Nat → World → Ctx → Outcome × Nat × World
  | 0, w, _ => (Outcome.fault FaultReason.outOfGas, 0, w)
  | fuel + 1, w, c =>
    if c.pc < c.code.length then
      runOp env (fun w2 c2 => run env fuel w2 c2) w c (c.code.getD c.pc 0)
    else (Outcome.stop, c.gas, w)

/-- Result of one top-level invocation (spec.md sections 6, 7). -/
structure ExecResult where
  outcome : Outcome
  gasUsed : Nat
  world : World
deriving DecidableEq, Repr

/-- Execute one top-level invocation of the contract at `addr` (spec.md
sections 6, 7): resolve the contract, run its bytecode in a fresh root
context, and surface the outcome, the gas used, and the resulting persistent
state — which is the initial state unchanged whenever the invocation did not
succeed (no incomplete state is ever persisted for a failed top-level
invocation). -/
def execute (env : Nat → List Nat → Option (List Nat)) (w : World)
    (addr caller value : Nat) (input : List Nat) (gasLimit : Nat) : ExecResult :=
  match contractOf w addr with
  | none => { outcome := Outcome.ret [], gasUsed := 0, world := w }
  | some k =>
    match run env (gasLimit + 1) w
        { code := k.code, pc := 0, stack := [], mem := [], gas := gasLimit,
          caller := caller, address := addr, callValue := value, input := input,
          isStatic := false, depth := 0, retData := [] } with
    | (o, g, w2) =>
      { outcome := o, gasUsed := gasLimit - g, world := if isSuccess o then w2 else w }

/-- The `InvokeContract` entry point surfaced to the host (spec.md section 6):
success yields the produced output bytes, revert or fault yields a structured
failure. -/
def invokeContract (env : Nat → List Nat → Option (List Nat)) (w : World)
    (addr : Nat) (input : List Nat) (gasLimit : Nat) : Option (List Nat) :=
  match (execute env w addr 0 0 input gasLimit).outcome with
  | Outcome.ret d => some d
  | Outcome.stop => some []
  | _ => none
/-! ## Concrete fixtures from src/actors/evm/tests/call.rs -/

/-- The proxy contract of `call_proxy_contract` (src/actors/evm/tests/call.rs
lines 14-57), assembled from its listed mnemonics (the assembler module is not
under src/; the translation of each mnemonic to its opcode byte is the
standard one the spec's bytecode format fixes): copy the calldata past the
first 32-byte word to memory, CALL the address in the first word with zero
value and that payload as input, then return the full returndata. -/
def callProxyCode : List Nat :=
  [0x60, 0x20, 0x36, 0x03,
   0x60, 0x20, 0x60, 0x00, 0x37,
   0x61, 0x00, 0x00,
   0x60, 0x00,
   0x60, 0x20, 0x36, 0x03,
   0x60, 0x00,
   0x60, 0x00,
   0x60, 0x00, 0x35,
   0x60, 0x00,
   0xf1,
   0x3d, 0x60, 0x00, 0x60, 0x00, 0x3e,
   0x3d, 0x60, 0x00, 0xf3]

/-- The target actor ID used by `test_call` (src/actors/evm/tests/call.rs line
78): `FILAddress::new_id(0x100)`. -/
def targetId : Nat := 0x100

/-- The 160-bit EVM address of the target, as
`EVMAddress::from_id_address(&target)` computes it in the test. -/
def targetEvmAddr : Nat := to_evm (NativeAddress.id targetId)

/-- The 32 return-data bytes the mocked send produces in the test (lines
94-95): 31 zero bytes then 0x42. -/
def ret42 : List Nat := List.replicate 31 0 ++ [0x42]

/-- The external-send environment of the test: the mocked `expect_send` (lines
98-105) answers an `InvokeContract` send to the target actor carrying the
4-byte zero payload with the 32-byte word 0x42. -/
def env42 : Nat → List Nat → Option (List Nat) :=
  fun a input => if a == targetEvmAddr && input == [0, 0, 0, 0] then some ret42 else none

/-- The address at which the constructed proxy contract lives in the model. -/
def proxyAddr : Nat := 1

/-- The world holding the constructed proxy contract. -/
def proxyWorld : World :=
  { contracts := [(proxyAddr, { code := callProxyCode, storage := [], nonce := 0 })] }

/-- The invocation input of the test (lines 84-87): the 32-byte big-endian
target address word followed by a 4-byte zero payload. -/
def proxyInput : List Nat := beBytes 32 targetEvmAddr ++ [0, 0, 0, 0]

/-- An external-send environment that answers no send. -/
def env0 : Nat → List Nat → Option (List Nat) := fun _ _ => none

/-- The empty world. -/
def world0 : World := { contracts := [] }

/-- A program of 1025 consecutive `PUSH1 0x00` instructions (spec.md
section 8). -/
def pushProg : Nat → List Nat
  | 0 => []
  | n + 1 => 0x60 :: 0x00 :: pushProg n

/-- A context running the 1025-PUSH1 program with ample gas. -/
def pushCtx : Ctx :=
  { code := pushProg 1025, pc := 0, stack := [], mem := [], gas := 10000,
    caller := 0, address := 0, callValue := 0, input := [],
    isStatic := false, depth := 0, retData := [] }

/-- A context running a single bare arithmetic opcode (ADD) on an empty
stack. -/
def addCtx : Ctx :=
  { code := [0x01], pc := 0, stack := [], mem := [], gas := 100,
    caller := 0, address := 0, callValue := 0, input := [],
    isStatic := false, depth := 0, retData := [] }

/-! ## Helper lemmas -/

theorem pushProg_length (n : Nat) : (pushProg n).length = 2 * n := by
  induction n with
  | zero => rfl
  | succ m ih => simp [pushProg, ih]; omega

theorem pushProg_getD (k : Nat) : ∀ n, k < n →
    (pushProg n).getD (2 * k) 0 = 0x60 ∧ (pushProg n).getD (2 * k + 1) 0 = 0 := by
  induction k with
  | zero =>
    intro n h
    cases n with
    | zero => omega
    | succ m => simp [pushProg]
  | succ j ih =>
    intro n h
    cases n with
    | zero => omega
    | succ m =>
      have h2 : j < m := by omega
      have e1 : 2 * (j + 1) = 2 * j + 1 + 1 := by ring
      have e2 : 2 * (j + 1) + 1 = 2 * j + 1 + 1 + 1 := by ring
      constructor
      · rw [e1]
        show (0x60 :: 0x00 :: pushProg m).getD (2 * j + 1 + 1) 0 = 0x60
        rw [List.getD_cons_succ, List.getD_cons_succ]
        exact (ih m h2).1
      · rw [e2]
        show (0x60 :: 0x00 :: pushProg m).getD (2 * j + 1 + 1 + 1) 0 = 0
        rw [List.getD_cons_succ, List.getD_cons_succ]
        exact (ih m h2).2

theorem pushProg_overflow : ∀ (d : Nat) (s : List Nat) (g fuel : Nat) (w : World),
    1 ≤ d → s.length + d = 1025 → 3 * d ≤ g → d ≤ fuel →
    run env0 fuel w
      { code := pushProg 1025, pc := 2 * s.length, stack := s, mem := [], gas := g,
        caller := 0, address := 0, callValue := 0, input := [], isStatic := false,
        depth := 0, retData := [] }
      = (Outcome.fault FaultReason.stackOverflow, 0, w) := by
  intro d
  induction d with
  | zero => intro s g fuel w h1; omega
  | succ e ih =>
    intro s g fuel w h1 h2 h3 h4
    obtain ⟨f, rfl⟩ : ∃ f, fuel = f + 1 := ⟨fuel - 1, by omega⟩
    have hk : s.length ≤ 1024 := by omega
    have hpc : 2 * s.length < (pushProg 1025).length := by rw [pushProg_length]; omega
    have hop := (pushProg_getD s.length 1025 (by omega)).1
    have hg : 3 ≤ g := by omega
    rw [run]
    simp only [hpc, if_pos, hop]
    rw [runOp]
    norm_num
    rw [localStep]
    norm_num
    rw [localStepHigh]
    norm_num
    rw [stepPush]
    simp only [hg, if_pos]
    rw [pushStack]
    by_cases hfull : 1024 ≤ s.length
    · simp only [hfull, if_pos]
      rfl
    · simp only [hfull, if_neg, if_false]
      have he : 1 ≤ e := by omega
      have := ih (fromBigEndian (readBytes (pushProg 1025) (2 * s.length + 1) (0x60 - 0x5f)) :: s)
        (g - 3) f w he (by simp; omega) (by omega) (by omega)
      simp only [List.length_cons, Nat.mul_succ] at this
      norm_num at this ⊢
      rw [localToRun]
      exact this


/-- Invariant of a local step result: a continuation context keeps the static
flag `b`. -/
def stepStaticOk (b : Bool) : StepRes → Prop
  | StepRes.next c2 => c2.isStatic = b
  | StepRes.done _ _ => True

/-- Invariant of a local step result: a terminal fault carries zero remaining
gas. -/
def stepGasOk : StepRes → Prop
  | StepRes.done o g => isFault o = true → g = 0
  | StepRes.next _ => True

theorem stepStop_staticOk (c : Ctx) : stepStaticOk c.isStatic (stepStop c) := by
  simp only [stepStop]
  repeat' split
  all_goals first | trivial | rfl

theorem stepStop_gasOk (c : Ctx) : stepGasOk (stepStop c) := by
  simp only [stepStop]
  repeat' split
  all_goals first
    | trivial
    | (intro hf; simp [isFault] at hf <;> rfl)

theorem stepAdd_staticOk (c : Ctx) : stepStaticOk c.isStatic (stepAdd c) := by
  simp only [stepAdd]
  repeat' split
  all_goals first | trivial | rfl

theorem stepAdd_gasOk (c : Ctx) : stepGasOk (stepAdd c) := by
  simp only [stepAdd]
  repeat' split
  all_goals first
    | trivial
    | (intro hf; simp [isFault] at hf <;> rfl)

theorem stepSub_staticOk (c : Ctx) : stepStaticOk c.isStatic (stepSub c) := by
  simp only [stepSub]
  repeat' split
  all_goals first | trivial | rfl

theorem stepSub_gasOk (c : Ctx) : stepGasOk (stepSub c) := by
  simp only [stepSub]
  repeat' split
  all_goals first
    | trivial
    | (intro hf; simp [isFault] at hf <;> rfl)

theorem stepCalldataload_staticOk (c : Ctx) : stepStaticOk c.isStatic (stepCalldataload c) := by
  simp only [stepCalldataload]
  repeat' split
  all_goals first | trivial | rfl

theorem stepCalldataload_gasOk (c : Ctx) : stepGasOk (stepCalldataload c) := by
  simp only [stepCalldataload]
  repeat' split
  all_goals first
    | trivial
    | (intro hf; simp [isFault] at hf <;> rfl)

theorem stepCalldatasize_staticOk (c : Ctx) : stepStaticOk c.isStatic (stepCalldatasize c) := by
  simp only [stepCalldatasize]
  repeat' split
  all_goals first | trivial | rfl

theorem stepCalldatasize_gasOk (c : Ctx) : stepGasOk (stepCalldatasize c) := by
  simp only [stepCalldatasize]
  repeat' split
  all_goals first
    | trivial
    | (intro hf; simp [isFault] at hf <;> rfl)

theorem stepCalldatacopy_staticOk (c : Ctx) : stepStaticOk c.isStatic (stepCalldatacopy c) := by
  simp only [stepCalldatacopy]
  repeat' split
  all_goals first | trivial | rfl

theorem stepCalldatacopy_gasOk (c : Ctx) : stepGasOk (stepCalldatacopy c) := by
  simp only [stepCalldatacopy]
  repeat' split
  all_goals first
    | trivial
    | (intro hf; simp [isFault] at hf <;> rfl)

theorem stepReturndatasize_staticOk (c : Ctx) : stepStaticOk c.isStatic (stepReturndatasize c) := by
  simp only [stepReturndatasize]
  repeat' split
  all_goals first | trivial | rfl

theorem stepReturndatasize_gasOk (c : Ctx) : stepGasOk (stepReturndatasize c) := by
  simp only [stepReturndatasize]
  repeat' split
  all_goals first
    | trivial
    | (intro hf; simp [isFault] at hf <;> rfl)

theorem stepReturndatacopy_staticOk (c : Ctx) : stepStaticOk c.isStatic (stepReturndatacopy c) := by
  simp only [stepReturndatacopy]
  repeat' split
  all_goals first | trivial | rfl

theorem stepReturndatacopy_gasOk (c : Ctx) : stepGasOk (stepReturndatacopy c) := by
  simp only [stepReturndatacopy]
  repeat' split
  all_goals first
    | trivial
    | (intro hf; simp [isFault] at hf <;> rfl)

theorem stepMstore_staticOk (c : Ctx) : stepStaticOk c.isStatic (stepMstore c) := by
  simp only [stepMstore]
  repeat' split
  all_goals first | trivial | rfl

theorem stepMstore_gasOk (c : Ctx) : stepGasOk (stepMstore c) := by
  simp only [stepMstore]
  repeat' split
  all_goals first
    | trivial
    | (intro hf; simp [isFault] at hf <;> rfl)

theorem stepJump_staticOk (c : Ctx) : stepStaticOk c.isStatic (stepJump c) := by
  simp only [stepJump]
  repeat' split
  all_goals first | trivial | rfl

theorem stepJump_gasOk (c : Ctx) : stepGasOk (stepJump c) := by
  simp only [stepJump]
  repeat' split
  all_goals first
    | trivial
    | (intro hf; simp [isFault] at hf <;> rfl)

theorem stepJumpi_staticOk (c : Ctx) : stepStaticOk c.isStatic (stepJumpi c) := by
  simp only [stepJumpi]
  repeat' split
  all_goals first | trivial | rfl

theorem stepJumpi_gasOk (c : Ctx) : stepGasOk (stepJumpi c) := by
  simp only [stepJumpi]
  repeat' split
  all_goals first
    | trivial
    | (intro hf; simp [isFault] at hf <;> rfl)

theorem stepJumpdest_staticOk (c : Ctx) : stepStaticOk c.isStatic (stepJumpdest c) := by
  simp only [stepJumpdest]
  repeat' split
  all_goals first | trivial | rfl

theorem stepJumpdest_gasOk (c : Ctx) : stepGasOk (stepJumpdest c) := by
  simp only [stepJumpdest]
  repeat' split
  all_goals first
    | trivial
    | (intro hf; simp [isFault] at hf <;> rfl)

theorem stepReturn_staticOk (c : Ctx) : stepStaticOk c.isStatic (stepReturn c) := by
  simp only [stepReturn]
  repeat' split
  all_goals first | trivial | rfl

theorem stepReturn_gasOk (c : Ctx) : stepGasOk (stepReturn c) := by
  simp only [stepReturn]
  repeat' split
  all_goals first
    | trivial
    | (intro hf; simp [isFault] at hf <;> rfl)

theorem stepRevert_staticOk (c : Ctx) : stepStaticOk c.isStatic (stepRevert c) := by
  simp only [stepRevert]
  repeat' split
  all_goals first | trivial | rfl

theorem stepRevert_gasOk (c : Ctx) : stepGasOk (stepRevert c) := by
  simp only [stepRevert]
  repeat' split
  all_goals first
    | trivial
    | (intro hf; simp [isFault] at hf <;> rfl)

theorem stepSelfdestruct_staticOk (c : Ctx) : stepStaticOk c.isStatic (stepSelfdestruct c) := by
  simp only [stepSelfdestruct]
  repeat' split
  all_goals first | trivial | rfl

theorem stepSelfdestruct_gasOk (c : Ctx) : stepGasOk (stepSelfdestruct c) := by
  simp only [stepSelfdestruct]
  repeat' split
  all_goals first
    | trivial
    | (intro hf; simp [isFault] at hf <;> rfl)

theorem stepPush_staticOk (c : Ctx) (op : Nat) : stepStaticOk c.isStatic (stepPush c op) := by
  simp only [stepPush]
  repeat' split
  all_goals first | trivial | rfl

theorem stepPush_gasOk (c : Ctx) (op : Nat) : stepGasOk (stepPush c op) := by
  simp only [stepPush]
  repeat' split
  all_goals first
    | trivial
    | (intro hf; simp [isFault] at hf <;> rfl)

theorem localStepLow_staticOk (c : Ctx) (op : Nat) : stepStaticOk c.isStatic (localStepLow c op) := by
  rw [localStepLow]
  repeat' split
  all_goals first
    | exact stepStop_staticOk c
    | exact stepAdd_staticOk c
    | exact stepSub_staticOk c
    | exact stepCalldataload_staticOk c
    | exact stepCalldatasize_staticOk c
    | exact stepCalldatacopy_staticOk c
    | trivial

theorem localStepMid_staticOk (c : Ctx) (op : Nat) : stepStaticOk c.isStatic (localStepMid c op) := by
  rw [localStepMid]
  repeat' split
  all_goals first
    | exact stepReturndatasize_staticOk c
    | exact stepReturndatacopy_staticOk c
    | exact stepMstore_staticOk c
    | exact stepJump_staticOk c
    | exact stepJumpi_staticOk c
    | exact stepJumpdest_staticOk c
    | trivial

theorem localStepHigh_staticOk (c : Ctx) (op : Nat) : stepStaticOk c.isStatic (localStepHigh c op) := by
  rw [localStepHigh]
  repeat' split
  all_goals first
    | exact stepPush_staticOk c op
    | exact stepReturn_staticOk c
    | exact stepRevert_staticOk c
    | exact stepSelfdestruct_staticOk c
    | trivial

theorem localStep_staticOk (c : Ctx) (op : Nat) : stepStaticOk c.isStatic (localStep c op) := by
  rw [localStep]
  repeat' split
  exacts [localStepLow_staticOk c op, localStepMid_staticOk c op, localStepHigh_staticOk c op]

theorem localStepLow_gasOk (c : Ctx) (op : Nat) : stepGasOk (localStepLow c op) := by
  rw [localStepLow]
  repeat' split
  all_goals first
    | exact stepStop_gasOk c
    | exact stepAdd_gasOk c
    | exact stepSub_gasOk c
    | exact stepCalldataload_gasOk c
    | exact stepCalldatasize_gasOk c
    | exact stepCalldatacopy_gasOk c
    | (intro hf; rfl)

theorem localStepMid_gasOk (c : Ctx) (op : Nat) : stepGasOk (localStepMid c op) := by
  rw [localStepMid]
  repeat' split
  all_goals first
    | exact stepReturndatasize_gasOk c
    | exact stepReturndatacopy_gasOk c
    | exact stepMstore_gasOk c
    | exact stepJump_gasOk c
    | exact stepJumpi_gasOk c
    | exact stepJumpdest_gasOk c
    | (intro hf; rfl)

theorem localStepHigh_gasOk (c : Ctx) (op : Nat) : stepGasOk (localStepHigh c op) := by
  rw [localStepHigh]
  repeat' split
  all_goals first
    | exact stepPush_gasOk c op
    | exact stepReturn_gasOk c
    | exact stepRevert_gasOk c
    | exact stepSelfdestruct_gasOk c
    | (intro hf; rfl)

theorem localStep_gasOk (c : Ctx) (op : Nat) : stepGasOk (localStep c op) := by
  rw [localStep]
  repeat' split
  exacts [localStepLow_gasOk c op, localStepMid_gasOk c op, localStepHigh_gasOk c op]

theorem applyChildResult_world (snap : World) (r : Outcome × Nat × World)
    (h : r.2.2 = snap) : (applyChildResult snap r).2.2.2 = snap := by
  obtain ⟨o, g, w2⟩ := r
  cases o <;> simp_all [applyChildResult]

theorem localToRun_world (recurse : World → Ctx → Outcome × Nat × World) (w : World)
    (r : StepRes) (hr : stepStaticOk true r)
    (hrec : ∀ w2 c2, c2.isStatic = true → (recurse w2 c2).2.2 = w2) :
    (localToRun recurse w r).2.2 = w := by
  cases r with
  | done o g => rfl
  | next c2 => exact hrec w c2 hr

theorem stepSload_world (recurse : World → Ctx → Outcome × Nat × World) (w : World) (c : Ctx)
    (hrec : ∀ w2 c2, c2.isStatic = true → (recurse w2 c2).2.2 = w2)
    (h : c.isStatic = true) : (stepSload recurse w c).2.2 = w := by
  simp only [stepSload]
  repeat' split
  all_goals first | rfl | (exact hrec _ _ h)

theorem stepSstore_world (recurse : World → Ctx → Outcome × Nat × World) (w : World) (c : Ctx)
    (hrec : ∀ w2 c2, c2.isStatic = true → (recurse w2 c2).2.2 = w2)
    (h : c.isStatic = true) : (stepSstore recurse w c).2.2 = w := by
  simp only [stepSstore]
  repeat' split
  all_goals first | rfl | (exact hrec _ _ h) | simp_all

theorem stepCallOp_world (env : Nat → List Nat → Option (List Nat))
    (recurse : World → Ctx → Outcome × Nat × World) (w : World) (c : Ctx)
    (hrec : ∀ w2 c2, c2.isStatic = true → (recurse w2 c2).2.2 = w2)
    (h : c.isStatic = true) : (stepCallOp env recurse w c).2.2 = w := by
  simp only [stepCallOp]
  repeat' split
  all_goals first
    | rfl
    | (exact hrec _ _ h)
    | (rw [applyChildResult_world] <;> exact hrec _ _ h)

theorem stepStaticcallOp_world (env : Nat → List Nat → Option (List Nat))
    (recurse : World → Ctx → Outcome × Nat × World) (w : World) (c : Ctx)
    (hrec : ∀ w2 c2, c2.isStatic = true → (recurse w2 c2).2.2 = w2)
    (h : c.isStatic = true) : (stepStaticcallOp env recurse w c).2.2 = w := by
  simp only [stepStaticcallOp]
  repeat' split
  all_goals first
    | rfl
    | (exact hrec _ _ h)
    | (rw [applyChildResult_world] <;> first | exact hrec _ _ h | exact hrec _ _ rfl)

theorem stepCreateOp_world (recurse : World → Ctx → Outcome × Nat × World) (w : World) (c : Ctx)
    (_hrec : ∀ w2 c2, c2.isStatic = true → (recurse w2 c2).2.2 = w2)
    (h : c.isStatic = true) : (stepCreateOp recurse w c).2.2 = w := by
  simp only [stepCreateOp]
  repeat' split
  all_goals first | rfl | simp_all

theorem runOp_world (env : Nat → List Nat → Option (List Nat))
    (recurse : World → Ctx → Outcome × Nat × World) (w : World) (c : Ctx) (op : Nat)
    (hrec : ∀ w2 c2, c2.isStatic = true → (recurse w2 c2).2.2 = w2)
    (h : c.isStatic = true) : (runOp env recurse w c op).2.2 = w := by
  rw [runOp]
  repeat' split
  · exact stepSload_world recurse w c hrec h
  · exact stepSstore_world recurse w c hrec h
  · exact stepCallOp_world env recurse w c hrec h
  · exact stepStaticcallOp_world env recurse w c hrec h
  · exact stepCreateOp_world recurse w c hrec h
  · refine localToRun_world recurse w (localStep c op) ?_ hrec
    have hs := localStep_staticOk c op
    rwa [h] at hs

theorem run_static_world (env : Nat → List Nat → Option (List Nat)) :
    ∀ (fuel : Nat) (w : World) (c : Ctx), c.isStatic = true →
      (run env fuel w c).2.2 = w := by
  intro fuel
  induction fuel with
  | zero => intro w c _; rfl
  | succ f ih =>
    intro w c h
    rw [run]
    split
    · exact runOp_world env _ w c _ (fun w2 c2 h2 => ih w2 c2 h2) h
    · rfl

theorem localToRun_gas (recurse : World → Ctx → Outcome × Nat × World) (w : World)
    (r : StepRes) (hr : stepGasOk r)
    (hrec : ∀ w2 c2, isFault (recurse w2 c2).1 = true → (recurse w2 c2).2.1 = 0) :
    isFault (localToRun recurse w r).1 = true → (localToRun recurse w r).2.1 = 0 := by
  cases r with
  | done o g => exact hr
  | next c2 => exact hrec w c2

theorem stepSload_gas (recurse : World → Ctx → Outcome × Nat × World) (w : World) (c : Ctx)
    (hrec : ∀ w2 c2, isFault (recurse w2 c2).1 = true → (recurse w2 c2).2.1 = 0) :
    isFault (stepSload recurse w c).1 = true → (stepSload recurse w c).2.1 = 0 := by
  simp only [stepSload]
  repeat' split
  all_goals first | (intro hf; rfl) | (exact hrec _ _)

theorem stepSstore_gas (recurse : World → Ctx → Outcome × Nat × World) (w : World) (c : Ctx)
    (hrec : ∀ w2 c2, isFault (recurse w2 c2).1 = true → (recurse w2 c2).2.1 = 0) :
    isFault (stepSstore recurse w c).1 = true → (stepSstore recurse w c).2.1 = 0 := by
  simp only [stepSstore]
  repeat' split
  all_goals first | (intro hf; rfl) | (exact hrec _ _)

theorem stepCallOp_gas (env : Nat → List Nat → Option (List Nat))
    (recurse : World → Ctx → Outcome × Nat × World) (w : World) (c : Ctx)
    (hrec : ∀ w2 c2, isFault (recurse w2 c2).1 = true → (recurse w2 c2).2.1 = 0) :
    isFault (stepCallOp env recurse w c).1 = true → (stepCallOp env recurse w c).2.1 = 0 := by
  simp only [stepCallOp]
  repeat' split
  all_goals first | (intro hf; rfl) | (exact hrec _ _)

theorem stepStaticcallOp_gas (env : Nat → List Nat → Option (List Nat))
    (recurse : World → Ctx → Outcome × Nat × World) (w : World) (c : Ctx)
    (hrec : ∀ w2 c2, isFault (recurse w2 c2).1 = true → (recurse w2 c2).2.1 = 0) :
    isFault (stepStaticcallOp env recurse w c).1 = true →
      (stepStaticcallOp env recurse w c).2.1 = 0 := by
  simp only [stepStaticcallOp]
  repeat' split
  all_goals first | (intro hf; rfl) | (exact hrec _ _)

theorem stepCreateOp_gas (recurse : World → Ctx → Outcome × Nat × World) (w : World) (c : Ctx)
    (hrec : ∀ w2 c2, isFault (recurse w2 c2).1 = true → (recurse w2 c2).2.1 = 0) :
    isFault (stepCreateOp recurse w c).1 = true → (stepCreateOp recurse w c).2.1 = 0 := by
  simp only [stepCreateOp]
  repeat' split
  all_goals first | (intro hf; rfl) | (exact hrec _ _)

theorem runOp_gas (env : Nat → List Nat → Option (List Nat))
    (recurse : World → Ctx → Outcome × Nat × World) (w : World) (c : Ctx) (op : Nat)
    (hrec : ∀ w2 c2, isFault (recurse w2 c2).1 = true → (recurse w2 c2).2.1 = 0) :
    isFault (runOp env recurse w c op).1 = true → (runOp env recurse w c op).2.1 = 0 := by
  rw [runOp]
  repeat' split
  · exact stepSload_gas recurse w c hrec
  · exact stepSstore_gas recurse w c hrec
  · exact stepCallOp_gas env recurse w c hrec
  · exact stepStaticcallOp_gas env recurse w c hrec
  · exact stepCreateOp_gas recurse w c hrec
  · exact localToRun_gas recurse w (localStep c op) (localStep_gasOk c op) hrec

theorem run_fault_gas (env : Nat → List Nat → Option (List Nat)) :
    ∀ (fuel : Nat) (w : World) (c : Ctx),
      isFault (run env fuel w c).1 = true → (run env fuel w c).2.1 = 0 := by
  intro fuel
  induction fuel with
  | zero => intro w c _; rfl
  | succ f ih =>
    intro w c
    rw [run]
    split
    · exact runOp_gas env _ w c _ (fun w2 c2 h2 => ih w2 c2 h2)
    · intro hf; simp [isFault] at hf

theorem f64Eq_refl (x : F64) (h : f64IsNaN x = false) : f64Eq x x = true := by
  rw [f64Eq, h]
  simp

/-! ## Claim theorems -/

/-- C10: the actor bundle assembled by the build script contains exactly the
eleven actors of the ACTORS table (system, init, cron, account, multisig,
power, miner, market, paych, reward, verifreg), added in that order; neither
the EVM interpreter actor nor the SQL execute and query actor is included. -/
theorem bundle_actor_list :
    bundledPackages = ["system", "init", "cron", "account", "multisig", "power", "miner",
      "market", "paych", "reward", "verifreg"] ∧
    ACTORS.length = 11 ∧
    bundledPackages.contains "evm" = false ∧
    bundledPackages.contains "tableland" = false ∧
    bundledActorIDs = ["system", "init", "cron", "account", "multisig", "storagepower",
      "storageminer", "storagemarket", "paymentchannel", "reward", "verifiedregistry"] := by
  refine ⟨by decide, by decide, by decide, by decide, by decide⟩

/-- C9 counterexample: the Real value holding NaN round-trips bit-identically
through the untagged ValueDef encoding, yet the result does not compare equal
to the original, because IEEE-754 equality (Rust's `PartialEq` for f64) is
irreflexive at NaN. -/
theorem value_roundtrip_nan_counterexample :
    deserializeValue (serializeValue nanValue) = some nanValue ∧
    valueEq nanValue nanValue = false := by
  refine ⟨by decide, by decide⟩

/-- C9 (amended): for every SQL value of the five shapes, with Blob bytes in
the u8 range, serializing through the untagged ValueDef encoding and
deserializing yields the structurally identical value back; the result
compares equal to the original (under the code's `PartialEq`) whenever the
value is not a NaN Real. -/
theorem value_roundtrip (v : Value) (hb : blobBytesOk v) :
    deserializeValue (serializeValue v) = some v ∧
    (realNotNaN v = true → valueEq v v = true) := by
  cases v with
  | null => exact ⟨rfl, fun _ => rfl⟩
  | integer i => exact ⟨rfl, fun _ => by simp [valueEq]⟩
  | real r =>
    refine ⟨rfl, fun h => ?_⟩
    simp only [realNotNaN, Bool.not_eq_true'] at h
    simpa [valueEq] using f64Eq_refl r h
  | text s => exact ⟨rfl, fun _ => by simp [valueEq]⟩
  | blob bs =>
    refine ⟨?_, fun _ => by simp [valueEq]⟩
    simp only [serializeValue, deserializeValue, deI64, deF64, deStr, deBytes]
    rw [deBytesList_map bs hb]
    rfl

/-- C9 witness: the round-trip theorem applied at a concrete Blob value. -/
theorem value_roundtrip_witness :
    deserializeValue (serializeValue (Value.blob [0, 255])) = some (Value.blob [0, 255]) ∧
    (realNotNaN (Value.blob [0, 255]) = true →
      valueEq (Value.blob [0, 255]) (Value.blob [0, 255]) = true) :=
  value_roundtrip (Value.blob [0, 255]) (by intro b hb; simp at hb; rcases hb with rfl | rfl <;> norm_num)

/-- C7: the translation from a native account address to a 160-bit EVM address
is total (it is a function defined on all of `NativeAddress`) and
deterministic (equal inputs give equal outputs); converting an ID-class native
address never fails and agrees with the total translation. -/
theorem address_translation_total :
    (∀ a b : NativeAddress, a = b → to_evm a = to_evm b) ∧
    (∀ v : Nat, from_id_address (NativeAddress.id v) = some (to_evm (NativeAddress.id v))) :=
  ⟨fun _ _ h => h ▸ rfl, fun _ => rfl⟩

/-- C7 witness: the translation theorem applied at the test's target ID
address 0x100. -/
theorem address_translation_total_witness :
    to_evm (NativeAddress.id 0x100) = to_evm (NativeAddress.id 0x100) ∧
    from_id_address (NativeAddress.id 0x100) = some (to_evm (NativeAddress.id 0x100)) :=
  ⟨address_translation_total.1 (NativeAddress.id 0x100) (NativeAddress.id 0x100) rfl,
   address_translation_total.2 0x100⟩

/-- C8 counterexample: the Constructor run on the proxy contract returns an
empty value to the caller (src/actors/evm/tests/call.rs line 74,
`expect_empty(result)`), while the stored proxy bytecode is nonempty, so the
returned bytes cannot carry the pair (stored_bytecode, constructor_output)
the claim asserts. -/
theorem constructor_return_counterexample :
    (construct callProxyCode []).ret = [] ∧ callProxyCode ≠ [] :=
  ⟨rfl, by decide⟩

/-- C8 (amended): the Constructor succeeds, stores the given bytecode in the
actor's state, and returns an empty value to the caller; in particular for
the proxy contract constructed with empty input data. -/
theorem constructor_stores_and_returns_empty :
    construct callProxyCode [] =
      { state := { bytecode := callProxyCode }, ret := [] } := rfl

/-- C1: invoking the EVM contract actor's InvokeContract method on the proxy
contract, with input consisting of the 32-byte big-endian target address word
followed by a 4-byte payload, when the target returns the 32-byte big-endian
value 0x42, yields output whose big-endian 256-bit interpretation is exactly
0x42 (and indeed the exact 32 bytes the target produced). -/
theorem proxy_invoke_returns_0x42 :
    invokeContract env42 proxyWorld proxyAddr proxyInput 100000 = some ret42 ∧
    fromBigEndian ret42 = 0x42 := by
  refine ⟨by decide, by decide⟩

/-- C2: executing the same bytecode twice with identical caller, value, input
data, gas limit and identical initial storage state produces byte-identical
output data and identical gas consumption — the interpreter is a pure
function of its inputs, so the two runs coincide. -/
theorem execution_deterministic (env : Nat → List Nat → Option (List Nat)) (w : World)
    (addr caller value : Nat) (input : List Nat) (gasLimit : Nat)
    (r1 r2 : ExecResult)
    (h1 : r1 = execute env w addr caller value input gasLimit)
    (h2 : r2 = execute env w addr caller value input gasLimit) :
    outputOf r1.outcome = outputOf r2.outcome ∧ r1.gasUsed = r2.gasUsed := by
  subst h1; subst h2; exact ⟨rfl, rfl⟩

/-- C2 witness: determinism at a concrete invocation. -/
theorem execution_deterministic_witness :
    outputOf (execute env42 proxyWorld proxyAddr 0 0 proxyInput 100000).outcome
      = outputOf (execute env42 proxyWorld proxyAddr 0 0 proxyInput 100000).outcome ∧
    (execute env42 proxyWorld proxyAddr 0 0 proxyInput 100000).gasUsed
      = (execute env42 proxyWorld proxyAddr 0 0 proxyInput 100000).gasUsed :=
  execution_deterministic env42 proxyWorld proxyAddr 0 0 proxyInput 100000 _ _ rfl rfl

/-- A world holding a single contract whose code is a bare ADD, at address 2. -/
def addWorld : World :=
  { contracts := [(2, { code := [0x01], storage := [], nonce := 0 })] }

/-- C3: a context that terminates with a Fault has consumed all its remaining
gas (the run reports zero gas left); folding a faulted child into its parent
refunds no gas and discards the child's journal (the pre-call snapshot is
restored); folding a reverted child refunds its unused gas while likewise
discarding its journal in full; and a top-level invocation that does not
succeed leaves the persistent state exactly as it was. -/
theorem fault_consumes_gas_revert_refunds :
    (∀ (env : Nat → List Nat → Option (List Nat)) (fuel : Nat) (w : World) (c : Ctx),
        isFault (run env fuel w c).1 = true → (run env fuel w c).2.1 = 0) ∧
    (∀ (snap : World) (g : Nat) (w2 : World) (r : FaultReason),
        applyChildResult snap (Outcome.fault r, g, w2) = (false, [], 0, snap)) ∧
    (∀ (snap : World) (g : Nat) (w2 : World) (d : List Nat),
        applyChildResult snap (Outcome.revert d, g, w2) = (false, d, g, snap)) ∧
    (∀ (env : Nat → List Nat → Option (List Nat)) (w : World) (addr caller value : Nat)
        (input : List Nat) (gasLimit : Nat),
        isSuccess (execute env w addr caller value input gasLimit).outcome = false →
        (execute env w addr caller value input gasLimit).world = w) := by
  refine ⟨run_fault_gas, fun _ _ _ _ => rfl, fun _ _ _ _ => rfl, ?_⟩
  intro env w addr caller value input gasLimit
  rw [execute]
  split
  · intro hf
    simp [isSuccess] at hf
  · split
    intro hf
    simp_all

/-- C3 witness: the fault and revert folding rules at concrete inputs. -/
theorem fault_consumes_gas_revert_refunds_witness :
    (run env0 1 world0 addCtx).2.1 = 0 ∧
    applyChildResult world0 (Outcome.fault FaultReason.outOfGas, 7, proxyWorld)
      = (false, [], 0, world0) ∧
    applyChildResult world0 (Outcome.revert [1], 7, proxyWorld) = (false, [1], 7, world0) ∧
    (execute env0 addWorld 2 0 0 [] 50).world = addWorld :=
  ⟨fault_consumes_gas_revert_refunds.1 env0 1 world0 addCtx (by decide),
   fault_consumes_gas_revert_refunds.2.1 world0 7 proxyWorld FaultReason.outOfGas,
   fault_consumes_gas_revert_refunds.2.2.1 world0 7 proxyWorld [1],
   fault_consumes_gas_revert_refunds.2.2.2 env0 addWorld 2 0 0 [] 50 (by decide)⟩

/-- A context holding a full stack of 1024 words, about to execute PUSH1. -/
def fullStackCtx : Ctx :=
  { code := [0x60, 0x00], pc := 0, stack := List.replicate 1024 0, mem := [], gas := 10,
    caller := 0, address := 0, callValue := 0, input := [],
    isStatic := false, depth := 0, retData := [] }

/-- The opcodes of the model that pop operands from the stack: the arithmetic
and data opcodes, the memory and storage accesses, the jumps, the CALL family,
CREATE, and the terminators RETURN, REVERT and SELFDESTRUCT.  The remaining
modelled opcodes (STOP, CALLDATASIZE, RETURNDATASIZE, JUMPDEST, the PUSH
range) pop nothing, and unassigned bytes fault as invalid opcodes without
touching the stack. -/
def popOpcodes : List Nat :=
  [0x01, 0x03, 0x35, 0x37, 0x3e, 0x52, 0x54, 0x55, 0x56, 0x57,
   0xf0, 0xf1, 0xf3, 0xfa, 0xfd, 0xff]

/-- Whether an opcode pops at least one operand. -/
def popsOperands (op : Nat) : Bool := popOpcodes.contains op

/-- C4: a push — any opcode of the PUSH1..PUSH32 range — onto a stack already
holding 1024 words faults the context with a stack overflow, and any opcode
that pops operands, run on an empty stack, faults with a stack underflow (the
handlers pop before charging, so no gas side condition is needed); in
particular the program of 1025 consecutive PUSH1 opcodes faults, and a single
bare ADD on an empty stack faults. -/
theorem stack_limit_faults :
    (∀ (env : Nat → List Nat → Option (List Nat)) (fuel : Nat) (w : World) (c : Ctx)
        (op : Nat),
        c.stack.length = 1024 → c.pc < c.code.length → c.code.getD c.pc 0 = op →
        0x60 ≤ op → op ≤ 0x7f → 3 ≤ c.gas →
        run env (fuel + 1) w c = (Outcome.fault FaultReason.stackOverflow, 0, w)) ∧
    (∀ (env : Nat → List Nat → Option (List Nat)) (fuel : Nat) (w : World) (c : Ctx)
        (op : Nat),
        c.stack = [] → c.pc < c.code.length → c.code.getD c.pc 0 = op →
        popsOperands op = true →
        run env (fuel + 1) w c = (Outcome.fault FaultReason.stackUnderflow, 0, w)) ∧
    run env0 1100 world0 pushCtx = (Outcome.fault FaultReason.stackOverflow, 0, world0) ∧
    run env0 5 world0 addCtx = (Outcome.fault FaultReason.stackUnderflow, 0, world0) := by
  refine ⟨?_, ?_, ?_, by decide⟩
  · intro env fuel w c op hlen hpc hop h1 h2 hg
    rw [run]
    simp only [hpc, if_pos, hop]
    rw [runOp]
    rw [if_neg (by omega : ¬op = 0x54), if_neg (by omega : ¬op = 0x55),
        if_neg (by omega : ¬op = 0xf1), if_neg (by omega : ¬op = 0xfa),
        if_neg (by omega : ¬op = 0xf0)]
    rw [localStep]
    rw [if_neg (by omega : ¬op < 0x38), if_neg (by omega : ¬op < 0x60)]
    rw [localStepHigh]
    rw [if_pos (by omega : op ≤ 0x7f)]
    rw [stepPush]
    rw [if_pos hg]
    rw [pushStack]
    rw [hlen]
    norm_num
    rfl
  · intro env fuel w c op hst hpc hop hpop
    rw [run]
    simp only [hpc, if_pos, hop]
    have hmem : op = 0x01 ∨ op = 0x03 ∨ op = 0x35 ∨ op = 0x37 ∨ op = 0x3e ∨ op = 0x52 ∨
        op = 0x54 ∨ op = 0x55 ∨ op = 0x56 ∨ op = 0x57 ∨ op = 0xf0 ∨ op = 0xf1 ∨
        op = 0xf3 ∨ op = 0xfa ∨ op = 0xfd ∨ op = 0xff := by
      simpa [popsOperands, popOpcodes] using hpop
    rcases hmem with rfl | rfl | rfl | rfl | rfl | rfl | rfl | rfl | rfl | rfl | rfl | rfl |
      rfl | rfl | rfl | rfl
    all_goals rw [runOp]
    all_goals norm_num
    all_goals first
      | (rw [stepSload]; rw [hst]; rfl)
      | (rw [stepSstore]; rw [hst]; rfl)
      | (rw [stepCallOp]; rw [hst]; rfl)
      | (rw [stepStaticcallOp]; rw [hst]; rfl)
      | (rw [stepCreateOp]; rw [hst]; rfl)
      | (rw [localStep]; norm_num;
         first
          | (rw [localStepLow]; norm_num;
             first
              | (rw [stepAdd]; rw [hst]; rfl)
              | (rw [stepSub]; rw [hst]; rfl)
              | (rw [stepCalldataload]; rw [hst]; rfl)
              | (rw [stepCalldatacopy]; rw [hst]; rfl))
          | (rw [localStepMid]; norm_num;
             first
              | (rw [stepReturndatacopy]; rw [hst]; rfl)
              | (rw [stepMstore]; rw [hst]; rfl)
              | (rw [stepJump]; rw [hst]; rfl)
              | (rw [stepJumpi]; rw [hst]; rfl))
          | (rw [localStepHigh]; norm_num;
             first
              | (rw [stepReturn]; rw [hst]; rfl)
              | (rw [stepRevert]; rw [hst]; rfl)
              | (rw [stepSelfdestruct]; rw [hst]; rfl)))
  · exact pushProg_overflow 1025 [] 10000 1100 world0 (by norm_num) (by simp) (by norm_num)
      (by norm_num)

/-- A context holding a full stack of 1024 words, about to execute PUSH32. -/
def push32FullCtx : Ctx :=
  { code := [0x7f], pc := 0, stack := List.replicate 1024 0, mem := [], gas := 10,
    caller := 0, address := 0, callValue := 0, input := [],
    isStatic := false, depth := 0, retData := [] }

/-- A context about to execute MSTORE on an empty stack. -/
def mstoreEmptyCtx : Ctx :=
  { code := [0x52], pc := 0, stack := [], mem := [], gas := 100,
    caller := 0, address := 0, callValue := 0, input := [],
    isStatic := false, depth := 0, retData := [] }

/-- C4 witness: the generic overflow clause at PUSH1 and PUSH32 on a full
stack, and the generic underflow clause at ADD and MSTORE on an empty
stack. -/
theorem stack_limit_faults_witness :
    run env0 3 world0 fullStackCtx = (Outcome.fault FaultReason.stackOverflow, 0, world0) ∧
    run env0 3 world0 push32FullCtx = (Outcome.fault FaultReason.stackOverflow, 0, world0) ∧
    run env0 3 world0 addCtx = (Outcome.fault FaultReason.stackUnderflow, 0, world0) ∧
    run env0 3 world0 mstoreEmptyCtx = (Outcome.fault FaultReason.stackUnderflow, 0, world0) :=
  ⟨stack_limit_faults.1 env0 2 world0 fullStackCtx 0x60 (by simp [fullStackCtx]) (by decide)
      (by decide) (by decide) (by decide) (by decide),
   stack_limit_faults.1 env0 2 world0 push32FullCtx 0x7f (by simp [push32FullCtx]) (by decide)
      (by decide) (by decide) (by decide) (by decide),
   stack_limit_faults.2.1 env0 2 world0 addCtx 0x01 rfl (by decide) (by decide) (by decide),
   stack_limit_faults.2.1 env0 2 world0 mstoreEmptyCtx 0x52 rfl (by decide) (by decide)
      (by decide)⟩

/-- C5: the gas handed to a child of a CALL-family dispatch equals
min(gas_requested, avail - avail / 64), where avail is the parent's remaining
gas after the call's own cost — so at most all-but-one-64th of the parent's
remaining gas is forwarded, and exactly the requested amount whenever the
caller requests no more than that bound. -/
theorem call_gas_forwarding :
    (∀ (code : List Nat) (callerA targetA value : Nat) (input : List Nat) (static : Bool)
        (depth requested avail : Nat),
        (mkChildCtx code callerA targetA value input static depth requested avail).gas
          = min requested (avail - avail / 64)) ∧
    (∀ requested avail : Nat, forwardGas requested avail ≤ avail - avail / 64) ∧
    (∀ requested avail : Nat, requested ≤ avail - avail / 64 →
        forwardGas requested avail = requested) :=
  ⟨fun _ _ _ _ _ _ _ _ _ => rfl,
   fun _ _ => Nat.min_le_right _ _,
   fun _ _ h => min_eq_left h⟩

/-- C5 witness: the forwarding rule at concrete amounts. -/
theorem call_gas_forwarding_witness :
    (mkChildCtx [] 0 0 0 [] false 1 100 6400).gas = min 100 (6400 - 6400 / 64) ∧
    forwardGas 100 6400 ≤ 6400 - 6400 / 64 ∧
    forwardGas 100 6400 = 100 :=
  ⟨call_gas_forwarding.1 [] 0 0 0 [] false 1 100 6400,
   call_gas_forwarding.2.1 100 6400,
   call_gas_forwarding.2.2 100 6400 (by norm_num)⟩

/-- C6: in a static execution context, a storage write (SSTORE), a
value-transferring CALL, a CREATE and a SELFDESTRUCT all terminate the context
with the state-change-in-static-context fault, leaving the threaded world
untouched; and no execution of a static context — whatever its code, inputs or
nesting, with STATICCALL children forced static in turn — ever changes the
persistent world: the run's resulting world is exactly the initial one. -/
theorem static_context_enforcement :
    (∀ (env : Nat → List Nat → Option (List Nat)) (fuel : Nat) (w : World) (c : Ctx)
        (k v : Nat) (rest : List Nat),
        c.isStatic = true → c.pc < c.code.length → c.code.getD c.pc 0 = 0x55 →
        c.stack = k :: v :: rest →
        run env (fuel + 1) w c = (Outcome.fault FaultReason.stateChangeInStaticContext, 0, w)) ∧
    (∀ (env : Nat → List Nat → Option (List Nat)) (fuel : Nat) (w : World) (c : Ctx)
        (gq a value io isz oo osz : Nat) (rest : List Nat),
        c.isStatic = true → value ≠ 0 → c.pc < c.code.length → c.code.getD c.pc 0 = 0xf1 →
        c.stack = gq :: a :: value :: io :: isz :: oo :: osz :: rest →
        run env (fuel + 1) w c = (Outcome.fault FaultReason.stateChangeInStaticContext, 0, w)) ∧
    (∀ (env : Nat → List Nat → Option (List Nat)) (fuel : Nat) (w : World) (c : Ctx)
        (value off len : Nat) (rest : List Nat),
        c.isStatic = true → c.pc < c.code.length → c.code.getD c.pc 0 = 0xf0 →
        c.stack = value :: off :: len :: rest →
        run env (fuel + 1) w c = (Outcome.fault FaultReason.stateChangeInStaticContext, 0, w)) ∧
    (∀ (env : Nat → List Nat → Option (List Nat)) (fuel : Nat) (w : World) (c : Ctx)
        (b : Nat) (rest : List Nat),
        c.isStatic = true → c.pc < c.code.length → c.code.getD c.pc 0 = 0xff →
        c.stack = b :: rest →
        run env (fuel + 1) w c = (Outcome.fault FaultReason.stateChangeInStaticContext, 0, w)) ∧
    (∀ (env : Nat → List Nat → Option (List Nat)) (fuel : Nat) (w : World) (c : Ctx),
        c.isStatic = true → (run env fuel w c).2.2 = w) := by
  refine ⟨?_, ?_, ?_, ?_, fun env fuel w c h => run_static_world env fuel w c h⟩
  · intro env fuel w c k v rest h hpc hop hst
    rw [run]
    simp only [hpc, if_pos]
    rw [runOp]
    simp only [hop]
    norm_num
    rw [stepSstore]
    simp only [hst, pop2, h]
    rfl
  · intro env fuel w c gq a value io isz oo osz rest h hv hpc hop hst
    rw [run]
    simp only [hpc, if_pos]
    rw [runOp]
    simp only [hop]
    norm_num
    rw [stepCallOp]
    simp only [hst, pop7, h, hv]
    simp
    exact fun hv2 => absurd hv2 hv
  · intro env fuel w c value off len rest h hpc hop hst
    rw [run]
    simp only [hpc, if_pos]
    rw [runOp]
    simp only [hop]
    norm_num
    rw [stepCreateOp]
    simp only [hst, pop3, h]
    rfl
  · intro env fuel w c b rest h hpc hop hst
    rw [run]
    simp only [hpc, if_pos]
    rw [runOp]
    simp only [hop]
    norm_num
    rw [localStep]
    norm_num
    rw [localStepHigh]
    norm_num
    rw [stepSelfdestruct]
    simp only [hst, pop1, h]
    rfl

/-- A static context about to execute SSTORE. -/
def sstoreStaticCtx : Ctx :=
  { code := [0x55], pc := 0, stack := [1, 2], mem := [], gas := 30000,
    caller := 0, address := 0, callValue := 0, input := [],
    isStatic := true, depth := 0, retData := [] }

/-- A static context about to execute a value-transferring CALL. -/
def callStaticCtx : Ctx :=
  { code := [0xf1], pc := 0, stack := [0, 5, 1, 0, 0, 0, 0], mem := [], gas := 100000,
    caller := 0, address := 0, callValue := 0, input := [],
    isStatic := true, depth := 0, retData := [] }

/-- A static context about to execute CREATE. -/
def createStaticCtx : Ctx :=
  { code := [0xf0], pc := 0, stack := [0, 0, 0], mem := [], gas := 100000,
    caller := 0, address := 0, callValue := 0, input := [],
    isStatic := true, depth := 0, retData := [] }

/-- A static context about to execute SELFDESTRUCT. -/
def sdStaticCtx : Ctx :=
  { code := [0xff], pc := 0, stack := [9], mem := [], gas := 100000,
    caller := 0, address := 0, callValue := 0, input := [],
    isStatic := true, depth := 0, retData := [] }

/-- C6 witness: the static-context clauses at concrete contexts. -/
theorem static_context_enforcement_witness :
    run env0 1 world0 sstoreStaticCtx
      = (Outcome.fault FaultReason.stateChangeInStaticContext, 0, world0) ∧
    run env0 1 world0 callStaticCtx
      = (Outcome.fault FaultReason.stateChangeInStaticContext, 0, world0) ∧
    run env0 1 world0 createStaticCtx
      = (Outcome.fault FaultReason.stateChangeInStaticContext, 0, world0) ∧
    run env0 1 world0 sdStaticCtx
      = (Outcome.fault FaultReason.stateChangeInStaticContext, 0, world0) ∧
    (run env0 4 world0 sstoreStaticCtx).2.2 = world0 :=
  ⟨static_context_enforcement.1 env0 0 world0 sstoreStaticCtx 1 2 [] rfl (by decide)
      (by decide) rfl,
   static_context_enforcement.2.1 env0 0 world0 callStaticCtx 0 5 1 0 0 0 0 [] rfl
      (by decide) (by decide) (by decide) rfl,
   static_context_enforcement.2.2.1 env0 0 world0 createStaticCtx 0 0 0 [] rfl (by decide)
      (by decide) rfl,
   static_context_enforcement.2.2.2.1 env0 0 world0 sdStaticCtx 9 [] rfl (by decide)
      (by decide) rfl,
   static_context_enforcement.2.2.2.2 env0 4 world0 sstoreStaticCtx rfl⟩
